import Mathlib

/-!
Shallow embedding of the dbhub-operator (Tributary-ai-services/tas-mcp-servers,
`src/operators/dbhub-operator`): the `Database` / `DBHubInstance` data model,
the admission defaulters, the selector logic, DSN construction, TOML config
generation, the SHA-256 config fingerprint, and the reconcile fragments that
the verified properties are about.

Go `int32`/`int64` values are modelled as `Int`, Go strings as `String`,
Go `map[string]string` as association lists with Go's zero-value lookup
semantics, and Go `[]byte` as `List Nat` (each element < 256).
-/

namespace DBHub

/-- Go map lookup `m[k]` as an `Option` (association list; first binding wins). -/
def goLookup (m : List (String × String)) (k : String) : Option String :=
  match m with
  | [] => none
  | (k', v) :: rest => if k' = k then some v else goLookup rest k

/-- Go map indexing `m[k]`: returns the zero value `""` when the key is absent. -/
def goGet (m : List (String × String)) (k : String) : String :=
  (goLookup m k).getD ""

/-- Go map update `m[k] = v` (replaces the first binding or appends). -/
def goInsert (m : List (String × String)) (k v : String) : List (String × String) :=
  match m with
  | [] => [(k, v)]
  | (k', v') :: rest => if k' = k then (k, v) :: rest else (k', v') :: goInsert rest k v

/-! ### Go string ordering (`sort.Strings` sorts byte-lexicographically;
on UTF-8 data this coincides with codepoint-lexicographic order). -/

/-- Lexicographic `≤` on character lists by codepoint. -/
def lexLe : List Char → List Char → Bool
  | [], _ => true
  | _ :: _, [] => false
  | a :: as, b :: bs =>
    if a.toNat < b.toNat then true
    else if a.toNat = b.toNat then lexLe as bs
    else false

/-- Go string `≤` (byte/codepoint lexicographic). -/
def strLe (a b : String) : Bool := lexLe a.toList b.toList

/-- The ordering relation used for `sort.Strings`. -/
def strLeRel (a b : String) : Prop := strLe a b = true

instance : DecidableRel strLeRel := fun a b => by unfold strLeRel; infer_instance

/-- `sort.Strings`: sort ascending by Go string order. -/
def sortStrings (l : List String) : List String :=
  List.insertionSort strLeRel l

/-! ### Data model (`api/v1alpha1/database_types.go`, `dbhubinstance_types.go`).
Go string-typed enums (`DatabaseType`, `SSLMode`, `DatabasePhase`,
`TransportType`, `DBHubInstancePhase`) are modelled as `String` constants. -/

def DatabaseTypePostgres : String := "postgres"

def DatabaseTypeMySQL : String := "mysql"

def DatabaseTypeMariaDB : String := "mariadb"

def DatabaseTypeSQLServer : String := "sqlserver"

def DatabaseTypeSQLite : String := "sqlite"

def DatabasePhasePending : String := "Pending"

def DatabasePhaseConnected : String := "Connected"

def DatabasePhaseFailed : String := "Failed"

def SSLModeDisable : String := "disable"

def SSLModeRequire : String := "require"

def SSLModeVerifyCA : String := "verify-ca"

def SSLModeVerifyFull : String := "verify-full"

def TransportTypeHTTP : String := "http"

def DBHubInstancePhasePending : String := "Pending"

def DBHubInstancePhaseRunning : String := "Running"

def DBHubInstancePhaseFailed : String := "Failed"

def DBHubInstancePhaseDegraded : String := "Degraded"

/-- `CredentialsRef` from `database_types.go`. -/
structure CredentialsRef where
  name : String
  namespace' : String
  userKey : String
  passwordKey : String
  deriving DecidableEq, Repr

/-- `DatabaseSpec` from `database_types.go` (`Type` is rendered `dbType`). -/
structure DatabaseSpec where
  dbType : String
  host : String
  port : Int
  database : String
  credentialsRef : CredentialsRef
  connectionTimeout : Int
  queryTimeout : Int
  sslMode : String
  maxRows : Int
  readOnly : Bool
  description : String
  deriving DecidableEq, Repr

/-- `metav1.Condition` (the fields the operator sets). -/
structure Condition where
  condType : String
  status : Bool
  reason : String
  message : String
  lastTransitionTime : Int
  deriving DecidableEq, Repr

/-- `DatabaseStatus` from `database_types.go`
(`LastChecked` is modelled as an optional abstract timestamp). -/
structure DatabaseStatus where
  phase : String
  lastChecked : Option Int
  message : String
  dsn : String
  observedGeneration : Int
  conditions : List Condition
  deriving DecidableEq, Repr

/-- A `Database` object: the object-meta fields the operator reads plus
spec and status. -/
structure Database where
  name : String
  namespace' : String
  labels : List (String × String)
  generation : Int
  spec : DatabaseSpec
  status : DatabaseStatus
  deriving DecidableEq, Repr

/-- `Database.GetCredentialsNamespace`. -/
def Database.GetCredentialsNamespace (d : Database) : String :=
  if d.spec.credentialsRef.namespace' ≠ "" then d.spec.credentialsRef.namespace'
  else d.namespace'

/-- `Database.GetUserKey`. -/
def Database.GetUserKey (d : Database) : String :=
  if d.spec.credentialsRef.userKey ≠ "" then d.spec.credentialsRef.userKey
  else "username"

/-- `Database.GetPasswordKey`. -/
def Database.GetPasswordKey (d : Database) : String :=
  if d.spec.credentialsRef.passwordKey ≠ "" then d.spec.credentialsRef.passwordKey
  else "password"

/-- `DatabaseSelector` from `dbhubinstance_types.go`. -/
structure DatabaseSelector where
  matchLabels : List (String × String)
  matchNames : List String
  deriving DecidableEq, Repr

/-- `DefaultPolicy` from `dbhubinstance_types.go`. -/
structure DefaultPolicy where
  readOnly : Bool
  maxRows : Int
  allowedOperations : List String
  deriving DecidableEq, Repr

/-- `ResourceRequirements` (resource quantities modelled by their literal
strings, e.g. `"100m"`). -/
structure ResourceRequirements where
  requests : List (String × String)
  limits : List (String × String)
  deriving DecidableEq, Repr

/-- `DBHubInstanceSpec` (the fields the verified operations read; scheduling
fields that no modelled operation touches are omitted). -/
structure DBHubInstanceSpec where
  replicas : Option Int
  image : String
  imagePullPolicy : String
  transport : String
  port : Int
  databaseSelector : Option DatabaseSelector
  defaultPolicy : Option DefaultPolicy
  resources : Option ResourceRequirements
  deriving DecidableEq, Repr

/-- `DBHubInstanceStatus`. -/
structure DBHubInstanceStatus where
  phase : String
  availableReplicas : Int
  connectedDatabases : List String
  endpoint : String
  configHash : String
  observedGeneration : Int
  lastConfigUpdate : Option Int
  conditions : List Condition
  deriving DecidableEq, Repr

/-- A `DBHubInstance` object. -/
structure DBHubInstance where
  name : String
  namespace' : String
  generation : Int
  spec : DBHubInstanceSpec
  status : DBHubInstanceStatus
  deriving DecidableEq, Repr

/-- `DBHubInstance.GetReplicas`. -/
def DBHubInstance.GetReplicas (d : DBHubInstance) : Int :=
  match d.spec.replicas with
  | none => 1
  | some r => r

/-- `DBHubInstance.GetImage`. -/
def DBHubInstance.GetImage (d : DBHubInstance) : String :=
  if d.spec.image = "" then "bytebase/dbhub:latest" else d.spec.image

/-- `DBHubInstance.GetPort`. -/
def DBHubInstance.GetPort (d : DBHubInstance) : Int :=
  if d.spec.port = 0 then 8080 else d.spec.port

/-- `DBHubInstance.GetTransport`. -/
def DBHubInstance.GetTransport (d : DBHubInstance) : String :=
  if d.spec.transport = "" then TransportTypeHTTP else d.spec.transport

/-- `DBHubInstance.MatchesDatabase` from `dbhubinstance_types.go`. -/
def DBHubInstance.MatchesDatabase (d : DBHubInstance) (db : Database) : Bool :=
  match d.spec.databaseSelector with
  | none =>
    -- No selector means match all databases in the same namespace
    db.namespace' = d.namespace'
  | some sel =>
    if db.namespace' ≠ d.namespace' then false
    else if sel.matchNames.length > 0 && !(sel.matchNames.any (fun n => db.name = n)) then
      false
    else if sel.matchLabels.length > 0 &&
        !(sel.matchLabels.all (fun kv => goGet db.labels kv.1 = kv.2)) then
      false
    else true

/-! ### Admission defaulters (`database_webhook.go`, `dbhubinstance_webhook.go`).
Each Go defaulter is a sequence of independent set-if-unset mutations, rendered
here as one record update. -/

/-- The Go `switch obj.Spec.Type` that picks the default port
(no `default` case: an unmatched type keeps the current port). -/
def defaultPortFor (t : String) (port : Int) : Int :=
  if t = DatabaseTypePostgres then 5432
  else if t = DatabaseTypeMySQL ∨ t = DatabaseTypeMariaDB then 3306
  else if t = DatabaseTypeSQLServer then 1433
  else port

/-- `DatabaseCustomDefaulter.Default` from `database_webhook.go` (the Go method
mutates `obj` and returns `nil`; modelled as the resulting object). -/
def DatabaseCustomDefaulter.Default (db : Database) : Database :=
  { db with spec :=
    { db.spec with
      port := if db.spec.port = 0 then defaultPortFor db.spec.dbType db.spec.port
        else db.spec.port
      sslMode := if db.spec.sslMode = "" then SSLModeDisable else db.spec.sslMode
      connectionTimeout := if db.spec.connectionTimeout = 0 then 30
        else db.spec.connectionTimeout
      queryTimeout := if db.spec.queryTimeout = 0 then 60 else db.spec.queryTimeout
      maxRows := if db.spec.maxRows = 0 then 1000 else db.spec.maxRows
      credentialsRef :=
      { db.spec.credentialsRef with
        userKey := if db.spec.credentialsRef.userKey = "" then "username"
          else db.spec.credentialsRef.userKey
        passwordKey := if db.spec.credentialsRef.passwordKey = "" then "password"
          else db.spec.credentialsRef.passwordKey } } }

/-- The `resources` block installed by the `DBHubInstance` defaulter. -/
def defaultResources : ResourceRequirements :=
  { requests := [("cpu", "100m"), ("memory", "128Mi")]
    limits := [("cpu", "500m"), ("memory", "512Mi")] }

/-- The policy installed by the `DBHubInstance` defaulter. -/
def builtinDefaultPolicy : DefaultPolicy :=
  { readOnly := true
    maxRows := 1000
    allowedOperations := ["execute_sql", "search_objects"] }

/-- `DBHubInstanceCustomDefaulter.Default` from `dbhubinstance_webhook.go`. -/
def DBHubInstanceCustomDefaulter.Default (obj : DBHubInstance) : DBHubInstance :=
  { obj with spec :=
    { obj.spec with
      replicas := if obj.spec.replicas = none then some 1 else obj.spec.replicas
      image := if obj.spec.image = "" then "bytebase/dbhub:latest" else obj.spec.image
      imagePullPolicy := if obj.spec.imagePullPolicy = "" then "IfNotPresent"
        else obj.spec.imagePullPolicy
      transport := if obj.spec.transport = "" then TransportTypeHTTP
        else obj.spec.transport
      port := if obj.spec.port = 0 then 8080 else obj.spec.port
      resources := if obj.spec.resources = none then some defaultResources
        else obj.spec.resources
      defaultPolicy := if obj.spec.defaultPolicy = none then some builtinDefaultPolicy
        else obj.spec.defaultPolicy } }

/-! ### UTF-8 bytes and Go `url.QueryEscape`. -/

/-- UTF-8 encoding of one character (Go strings are UTF-8 byte sequences). -/
def utf8EncodeCharBytes (c : Char) : List Nat :=
  let n := c.toNat
  if n < 0x80 then [n]
  else if n < 0x800 then [0xC0 ||| (n >>> 6), 0x80 ||| (n &&& 0x3F)]
  else if n < 0x10000 then
    [0xE0 ||| (n >>> 12), 0x80 ||| ((n >>> 6) &&& 0x3F), 0x80 ||| (n &&& 0x3F)]
  else
    [0xF0 ||| (n >>> 18), 0x80 ||| ((n >>> 12) &&& 0x3F),
     0x80 ||| ((n >>> 6) &&& 0x3F), 0x80 ||| (n &&& 0x3F)]

/-- The bytes of a Go string. -/
def strBytes (s : String) : List Nat :=
  s.toList.flatMap utf8EncodeCharBytes

/-- Bytes Go's query escaper leaves unescaped: alphanumerics and `-._~`. -/
def isUnreservedByte (b : Nat) : Bool :=
  (decide (48 ≤ b) && decide (b ≤ 57)) || (decide (65 ≤ b) && decide (b ≤ 90)) ||
    (decide (97 ≤ b) && decide (b ≤ 122)) ||
    decide (b = 45) || decide (b = 46) || decide (b = 95) || decide (b = 126)

/-- Uppercase hex digit (Go `%XX` escapes use uppercase). -/
def upperHexDigit (n : Nat) : Char :=
  Char.ofNat (if n < 10 then 48 + n else 55 + n)

/-- Escape one byte as Go `url.QueryEscape` does: unreserved bytes kept,
space becomes `+`, anything else becomes `%XX`. -/
def queryEscapeByte (b : Nat) : List Char :=
  if isUnreservedByte b then [Char.ofNat b]
  else if b = 32 then ['+']
  else ['%', upperHexDigit (b / 16), upperHexDigit (b % 16)]

/-- Go `url.QueryEscape`. -/
def urlQueryEscape (s : String) : String :=
  String.mk ((strBytes s).flatMap queryEscapeByte)

/-! ### Reconciler constants and helpers
(`dbhubinstance_controller.go`, `database_controller.go`). -/

def configMapSuffix : String := "-config"

def secretSuffix : String := "-creds"

def serviceSuffix : String := ""

/-- `HealthCheckInterval = 5 * time.Minute`, in seconds. -/
def HealthCheckInterval : Int := 300

/-- `DBHubInstanceReconciler.labels`. -/
def DBHubInstanceReconciler.labels (instance' : DBHubInstance) : List (String × String) :=
  [("app.kubernetes.io/name", "dbhub"),
   ("app.kubernetes.io/instance", instance'.name),
   ("app.kubernetes.io/component", "database-mcp"),
   ("app.kubernetes.io/managed-by", "dbhub-operator")]

/-- `DBHubInstanceReconciler.selectorLabels`. -/
def DBHubInstanceReconciler.selectorLabels (instance' : DBHubInstance) : List (String × String) :=
  [("app.kubernetes.io/name", "dbhub"),
   ("app.kubernetes.io/instance", instance'.name)]

/-- `DBHubInstanceReconciler.envName`: uppercase, then `-`→`_`, then `.`→`_`. -/
def DBHubInstanceReconciler.envName (name : String) : String :=
  String.mk (((name.toList.map Char.toUpper).map
    (fun c => if c = '-' then '_' else c)).map
    (fun c => if c = '.' then '_' else c))

/-! ### DSN construction. -/

/-- `DBHubInstanceReconciler.buildDSN` (gateway reconciler). -/
def DBHubInstanceReconciler.buildDSN (db : Database) (username password : String) : String :=
  let spec := db.spec
  if spec.dbType = DatabaseTypePostgres then
    "postgres://" ++ urlQueryEscape username ++ ":" ++ urlQueryEscape password ++
      "@" ++ spec.host ++ ":" ++ toString spec.port ++ "/" ++ spec.database ++
      "?sslmode=" ++ spec.sslMode
  else if spec.dbType = DatabaseTypeMySQL ∨ spec.dbType = DatabaseTypeMariaDB then
    let tls := if spec.sslMode = SSLModeRequire ∨ spec.sslMode = SSLModeVerifyCA ∨
        spec.sslMode = SSLModeVerifyFull then "true" else "false"
    username ++ ":" ++ password ++ "@tcp(" ++ spec.host ++ ":" ++ toString spec.port ++
      ")/" ++ spec.database ++ "?tls=" ++ tls
  else if spec.dbType = DatabaseTypeSQLServer then
    "sqlserver://" ++ urlQueryEscape username ++ ":" ++ urlQueryEscape password ++
      "@" ++ spec.host ++ ":" ++ toString spec.port ++ "?database=" ++ spec.database
  else if spec.dbType = DatabaseTypeSQLite then
    spec.database
  else ""

/-- `DatabaseReconciler.buildDSN` (database reconciler): returns the full DSN
and the credential-free DSN stored in status. -/
def DatabaseReconciler.buildDSN (database : Database) (username password : String) :
    String × String :=
  let spec := database.spec
  if spec.dbType = DatabaseTypePostgres then
    ("postgres://" ++ urlQueryEscape username ++ ":" ++ urlQueryEscape password ++
      "@" ++ spec.host ++ ":" ++ toString spec.port ++ "/" ++ spec.database ++
      "?sslmode=" ++ spec.sslMode,
     "postgres://" ++ spec.host ++ ":" ++ toString spec.port ++ "/" ++ spec.database ++
      "?sslmode=" ++ spec.sslMode)
  else if spec.dbType = DatabaseTypeMySQL ∨ spec.dbType = DatabaseTypeMariaDB then
    let tls := if spec.sslMode = SSLModeRequire ∨ spec.sslMode = SSLModeVerifyCA ∨
        spec.sslMode = SSLModeVerifyFull then "true" else "false"
    (username ++ ":" ++ password ++ "@tcp(" ++ spec.host ++ ":" ++ toString spec.port ++
      ")/" ++ spec.database ++ "?tls=" ++ tls ++ "&timeout=" ++
      toString spec.connectionTimeout ++ "s",
     "tcp(" ++ spec.host ++ ":" ++ toString spec.port ++ ")/" ++ spec.database ++
      "?tls=" ++ tls)
  else if spec.dbType = DatabaseTypeSQLServer then
    ("sqlserver://" ++ urlQueryEscape username ++ ":" ++ urlQueryEscape password ++
      "@" ++ spec.host ++ ":" ++ toString spec.port ++ "?database=" ++ spec.database ++
      "&connection+timeout=" ++ toString spec.connectionTimeout,
     "sqlserver://" ++ spec.host ++ ":" ++ toString spec.port ++ "?database=" ++
      spec.database)
  else if spec.dbType = DatabaseTypeSQLite then
    (spec.database, spec.database)
  else ("", "")

/-! ### Secrets and credential fetching. The cluster's secrets are modelled by
a lookup `store : namespace → name → Except error Secret` (an `error` covers
NotFound as well as Forbidden). Secret values are byte strings. -/

/-- A `corev1.Secret`'s `Data`. -/
structure Secret where
  data : List (String × String)
  deriving DecidableEq, Repr

/-- A secret store: what `r.Get` on a Secret returns. -/
def SecretStore : Type := String → String → Except String Secret

/-- `DBHubInstanceReconciler.getDatabaseCredentials`: indexes `Data` with the
zero value `""` for missing keys. -/
def DBHubInstanceReconciler.getDatabaseCredentials (store : SecretStore) (db : Database) :
    Except String (String × String) :=
  match store db.GetCredentialsNamespace db.spec.credentialsRef.name with
  | .error e => .error e
  | .ok secret =>
    .ok (goGet secret.data db.GetUserKey, goGet secret.data db.GetPasswordKey)

/-- `DatabaseReconciler.getCredentials`: errors when the secret is missing or
either key is absent (comma-ok map lookup). -/
def DatabaseReconciler.getCredentials (store : SecretStore) (database : Database) :
    Except String (String × String) :=
  let secretNamespace := database.GetCredentialsNamespace
  let secretName := database.spec.credentialsRef.name
  match store secretNamespace secretName with
  | .error e =>
    .error ("failed to get secret " ++ secretNamespace ++ "/" ++ secretName ++ ": " ++ e)
  | .ok secret =>
    let userKey := database.GetUserKey
    let passwordKey := database.GetPasswordKey
    match goLookup secret.data userKey with
    | none => .error ("secret " ++ secretNamespace ++ "/" ++ secretName ++
        " does not contain key " ++ userKey)
    | some username =>
      match goLookup secret.data passwordKey with
      | none => .error ("secret " ++ secretNamespace ++ "/" ++ secretName ++
          " does not contain key " ++ passwordKey)
      | some password => .ok (username, password)

/-! ### TOML config generation (`DBHubInstanceReconciler.generateConfig`). -/

/-- One `[[sources]]` entry (the `WriteString` calls of the sources loop,
minus the credential handling). -/
def sourcesEntry (db : Database) : String :=
  let envName := DBHubInstanceReconciler.envName db.name
  "[[sources]]\nid = \"" ++ db.name ++ "\"\ndsn = \"$\x7b" ++ envName ++ "_DSN\x7d\"\n" ++
  (if db.spec.connectionTimeout > 0 then
    "connection_timeout = " ++ toString db.spec.connectionTimeout ++ "\n" else "") ++
  (if db.spec.queryTimeout > 0 then
    "query_timeout = " ++ toString db.spec.queryTimeout ++ "\n" else "") ++
  "\n"

/-- The `[[tools]]` blocks the tools loop writes for one database source. -/
def toolsEntry (policy : DefaultPolicy) (db : Database) : String :=
  "[[tools]]\n" ++ "name = \"execute_sql\"\n" ++ "source = \"" ++ db.name ++ "\"\n" ++
  (if policy.readOnly then "readonly = true\n" else "") ++
  (if policy.maxRows > 0 then "max_rows = " ++ toString policy.maxRows ++ "\n" else "") ++
  "\n" ++
  "[[tools]]\n" ++ "name = \"search_objects\"\n" ++ "source = \"" ++ db.name ++ "\"\n" ++
  "\n"

/-- The tools section: written only when `DefaultPolicy != nil` and
`len(databases) > 0`. -/
def toolsSection (policyOpt : Option DefaultPolicy) (databases : List Database) : String :=
  match policyOpt with
  | none => ""
  | some policy =>
    if databases.length > 0 then String.join (databases.map (toolsEntry policy)) else ""

/-- The sources loop: fetches credentials per database (first error aborts),
accumulates the sources section and the `<ENV>_DSN ↦ DSN` credential entries. -/
def collectSources (store : SecretStore) : List Database →
    Except String (String × List (String × String))
  | [] => .ok ("", [])
  | db :: rest =>
    match DBHubInstanceReconciler.getDatabaseCredentials store db with
    | .error e =>
      .error ("failed to get credentials for database " ++ db.name ++ ": " ++ e)
    | .ok (username, password) =>
      match collectSources store rest with
      | .error e => .error e
      | .ok (cfg, creds) =>
        .ok (sourcesEntry db ++ cfg,
          (DBHubInstanceReconciler.envName db.name ++ "_DSN",
            DBHubInstanceReconciler.buildDSN db username password) :: creds)

/-- `DBHubInstanceReconciler.generateConfig`: the rendered TOML template and
the credentials map for the derived Secret. -/
def DBHubInstanceReconciler.generateConfig (store : SecretStore)
    (instance' : DBHubInstance) (databases : List Database) :
    Except String (String × List (String × String)) :=
  match collectSources store databases with
  | .error e => .error e
  | .ok (sources, credentials) =>
    .ok (sources ++ toolsSection instance'.spec.defaultPolicy databases, credentials)

/-- `DBHubInstanceReconciler.findMatchingDatabases` applied to the namespace
listing: keep databases matching the selector whose phase is `Connected`. -/
def DBHubInstanceReconciler.findMatchingDatabases (instance' : DBHubInstance)
    (databaseList : List Database) : List Database :=
  databaseList.filter (fun db =>
    instance'.MatchesDatabase db && decide (db.status.phase = DatabasePhaseConnected))

/-- The `connectedDBs` computation in `DBHubInstanceReconciler.Reconcile`
(collect names, `sort.Strings`). -/
def DBHubInstanceReconciler.connectedDBs (databases : List Database) : List String :=
  sortStrings (databases.map (·.name))

/-- The reconcile step that stores the connected-database list on status. -/
def DBHubInstanceReconciler.updateConnectedDatabases (instance' : DBHubInstance)
    (databaseList : List Database) : DBHubInstance :=
  let dbs := DBHubInstanceReconciler.findMatchingDatabases instance' databaseList
  { instance' with status :=
    { instance'.status with
      connectedDatabases := DBHubInstanceReconciler.connectedDBs dbs } }

/-! ### SHA-256 (Go `crypto/sha256`, FIPS 180-4) over byte lists,
32-bit words as `Nat` reduced mod `2^32`. -/

/-- Truncate to a 32-bit word. -/
def u32 (n : Nat) : Nat := n % 4294967296

/-- 32-bit rotate right. -/
def rotr32 (x n : Nat) : Nat := u32 ((x >>> n) ||| (x <<< (32 - n)))

/-- 32-bit complement (for `x < 2^32`). -/
def compl32 (x : Nat) : Nat := x ^^^ 4294967295

def sha256Ch (x y z : Nat) : Nat := (x &&& y) ^^^ (compl32 x &&& z)

def sha256Maj (x y z : Nat) : Nat := (x &&& y) ^^^ (x &&& z) ^^^ (y &&& z)

def bsig0 (x : Nat) : Nat := rotr32 x 2 ^^^ rotr32 x 13 ^^^ rotr32 x 22

def bsig1 (x : Nat) : Nat := rotr32 x 6 ^^^ rotr32 x 11 ^^^ rotr32 x 25

def ssig0 (x : Nat) : Nat := rotr32 x 7 ^^^ rotr32 x 18 ^^^ (x >>> 3)

def ssig1 (x : Nat) : Nat := rotr32 x 17 ^^^ rotr32 x 19 ^^^ (x >>> 10)

/-- The 64 SHA-256 round constants. -/
def sha256K : List Nat :=
  [0x428A2F98, 0x71374491, 0xB5C0FBCF, 0xE9B5DBA5, 0x3956C25B, 0x59F111F1,
   0x923F82A4, 0xAB1C5ED5, 0xD807AA98, 0x12835B01, 0x243185BE, 0x550C7DC3,
   0x72BE5D74, 0x80DEB1FE, 0x9BDC06A7, 0xC19BF174, 0xE49B69C1, 0xEFBE4786,
   0x0FC19DC6, 0x240CA1CC, 0x2DE92C6F, 0x4A7484AA, 0x5CB0A9DC, 0x76F988DA,
   0x983E5152, 0xA831C66D, 0xB00327C8, 0xBF597FC7, 0xC6E00BF3, 0xD5A79147,
   0x06CA6351, 0x14292967, 0x27B70A85, 0x2E1B2138, 0x4D2C6DFC, 0x53380D13,
   0x650A7354, 0x766A0ABB, 0x81C2C92E, 0x92722C85, 0xA2BFE8A1, 0xA81A664B,
   0xC24B8B70, 0xC76C51A3, 0xD192E819, 0xD6990624, 0xF40E3585, 0x106AA070,
   0x19A4C116, 0x1E376C08, 0x2748774C, 0x34B0BCB5, 0x391C0CB3, 0x4ED8AA4A,
   0x5B9CCA4F, 0x682E6FF3, 0x748F82EE, 0x78A5636F, 0x84C87814, 0x8CC70208,
   0x90BEFFFA, 0xA4506CEB, 0xBEF9A3F7, 0xC67178F2]

/-- The eight working variables of the compression function. -/
structure Sha256State where
  a : Nat
  b : Nat
  c : Nat
  d : Nat
  e : Nat
  f : Nat
  g : Nat
  h : Nat
  deriving DecidableEq, Repr

/-- SHA-256 initial hash value. -/
def sha256H0 : Sha256State :=
  ⟨0x6A09E667, 0xBB67AE85, 0x3C6EF372, 0xA54FF53A,
   0x510E527F, 0x9B05688C, 0x1F83D9AB, 0x5BE0CD19⟩

/-- Big-endian 32-bit word `i` of a 64-byte block. -/
def wordAt (block : List Nat) (i : Nat) : Nat :=
  (block.getD (4 * i) 0) <<< 24 ||| (block.getD (4 * i + 1) 0) <<< 16 |||
    (block.getD (4 * i + 2) 0) <<< 8 ||| block.getD (4 * i + 3) 0

/-- Words 0–15 of the message schedule. -/
def initialSchedule (block : List Nat) : List Nat :=
  (List.range 16).map (wordAt block)

/-- Extend the message schedule to 64 words. -/
def extendSchedule (w : List Nat) : List Nat :=
  (List.range 48).foldl (fun acc i =>
    let t := i + 16
    acc ++ [u32 (ssig1 (acc.getD (t - 2) 0) + acc.getD (t - 7) 0 +
      ssig0 (acc.getD (t - 15) 0) + acc.getD (t - 16) 0)]) w

/-- One compression round. -/
def sha256Round (w : List Nat) (s : Sha256State) (t : Nat) : Sha256State :=
  let t1 := u32 (s.h + bsig1 s.e + sha256Ch s.e s.f s.g +
    sha256K.getD t 0 + w.getD t 0)
  let t2 := u32 (bsig0 s.a + sha256Maj s.a s.b s.c)
  ⟨u32 (t1 + t2), s.a, s.b, s.c, u32 (s.d + t1), s.e, s.f, s.g⟩

/-- Process one 64-byte block. -/
def processBlock (s : Sha256State) (block : List Nat) : Sha256State :=
  let w := extendSchedule (initialSchedule block)
  let r := (List.range 64).foldl (sha256Round w) s
  ⟨u32 (s.a + r.a), u32 (s.b + r.b), u32 (s.c + r.c), u32 (s.d + r.d),
   u32 (s.e + r.e), u32 (s.f + r.f), u32 (s.g + r.g), u32 (s.h + r.h)⟩

/-- Big-endian 64-bit length field. -/
def be64 (n : Nat) : List Nat :=
  [(n >>> 56) % 256, (n >>> 48) % 256, (n >>> 40) % 256, (n >>> 32) % 256,
   (n >>> 24) % 256, (n >>> 16) % 256, (n >>> 8) % 256, n % 256]

/-- SHA-256 padding: `0x80`, zeros to 56 mod 64, then the bit length. -/
def sha256Pad (msg : List Nat) : List Nat :=
  let len := msg.length
  msg ++ [128] ++ List.replicate ((119 - len % 64) % 64) 0 ++ be64 (8 * len)

/-- Split into 64-byte blocks (structural recursion on a fuel bound; the
padded message is consumed 64 bytes per step, so `length + 1` steps suffice). -/
def chunks64Go : Nat → List Nat → List (List Nat)
  | 0, _ => []
  | _, [] => []
  | fuel + 1, x :: rest => ((x :: rest).take 64) :: chunks64Go fuel ((x :: rest).drop 64)

/-- Split into 64-byte blocks. -/
def chunks64 (l : List Nat) : List (List Nat) :=
  chunks64Go (l.length + 1) l

/-- Big-endian bytes of one word. -/
def wordBytes (w : Nat) : List Nat :=
  [(w >>> 24) % 256, (w >>> 16) % 256, (w >>> 8) % 256, w % 256]

/-- The 32-byte digest. -/
def sha256Digest (s : Sha256State) : List Nat :=
  wordBytes s.a ++ wordBytes s.b ++ wordBytes s.c ++ wordBytes s.d ++
    wordBytes s.e ++ wordBytes s.f ++ wordBytes s.g ++ wordBytes s.h

/-- `sha256.Sum256`. -/
def sha256 (msg : List Nat) : List Nat :=
  sha256Digest ((chunks64 (sha256Pad msg)).foldl processBlock sha256H0)

/-- Lowercase hex digit (Go `%x`). -/
def hexDigitChar (n : Nat) : Char :=
  Char.ofNat (if n < 10 then 48 + n else 87 + n)

/-- Lowercase hex encoding of one byte. -/
def byteHex (b : Nat) : List Char :=
  [hexDigitChar (b / 16), hexDigitChar (b % 16)]

/-- Go `fmt.Sprintf("%x", bytes)`. -/
def bytesToHex (bs : List Nat) : String :=
  String.mk (bs.flatMap byteHex)

/-- `DBHubInstanceReconciler.calculateHash`:
`h := sha256.Sum256([]byte(data)); fmt.Sprintf("%x", h[:8])`. -/
def DBHubInstanceReconciler.calculateHash (data : String) : String :=
  bytesToHex ((sha256 (strBytes data)).take 8)

/-! ### Child objects created/updated by the gateway reconciler. -/

/-- The reconcile step that stores the config hash on status
(`instance.Status.ConfigHash = configHash`). -/
def DBHubInstanceReconciler.updateConfigHash (instance' : DBHubInstance)
    (configData : String) : DBHubInstance :=
  { instance' with status :=
    { instance'.status with
      configHash := DBHubInstanceReconciler.calculateHash configData } }

/-- A `corev1.ConfigMap`. -/
structure ConfigMap where
  name : String
  namespace' : String
  labels : List (String × String)
  data : List (String × String)
  deriving DecidableEq, Repr

/-- The ConfigMap desired by `reconcileConfigMap`. -/
def DBHubInstanceReconciler.desiredConfigMap (instance' : DBHubInstance)
    (configData : String) : ConfigMap :=
  { name := instance'.name ++ configMapSuffix
    namespace' := instance'.namespace'
    labels := DBHubInstanceReconciler.labels instance'
    data := [("dbhub.toml", configData)] }

/-- The update branch of `reconcileConfigMap`: overwrite `Data` and `Labels`. -/
def DBHubInstanceReconciler.reconcileConfigMapUpdate (instance' : DBHubInstance)
    (configData : String) (existing : ConfigMap) : ConfigMap :=
  let configMap := DBHubInstanceReconciler.desiredConfigMap instance' configData
  { existing with data := configMap.data, labels := configMap.labels }

/-- A named `corev1.Secret` object (the derived credentials Secret). -/
structure SecretObject where
  name : String
  namespace' : String
  labels : List (String × String)
  data : List (String × String)
  deriving DecidableEq, Repr

/-- The Secret desired by `reconcileCredentialsSecret`. -/
def DBHubInstanceReconciler.desiredCredentialsSecret (instance' : DBHubInstance)
    (credentials : List (String × String)) : SecretObject :=
  { name := instance'.name ++ secretSuffix
    namespace' := instance'.namespace'
    labels := DBHubInstanceReconciler.labels instance'
    data := credentials }

/-- An `appsv1.Deployment` (the fields the reconciler sets that the verified
properties mention; container probe/volume details are structurally fixed in
the source and not modelled field-by-field). -/
structure Deployment where
  name : String
  namespace' : String
  labels : List (String × String)
  selector : List (String × String)
  templateLabels : List (String × String)
  templateAnnotations : List (String × String)
  replicas : Int
  image : String
  imagePullPolicy : String
  args : List String
  port : Int
  deriving DecidableEq, Repr

/-- The Deployment desired by `reconcileDeployment`: the pod-template labels
are `r.labels(instance)` plus `config-hash = configHash`. -/
def DBHubInstanceReconciler.desiredDeployment (instance' : DBHubInstance)
    (configHash : String) : Deployment :=
  let replicas := instance'.GetReplicas
  let port := instance'.GetPort
  let image := instance'.GetImage
  let transport := instance'.GetTransport
  let labels := goInsert (DBHubInstanceReconciler.labels instance') "config-hash" configHash
  { name := instance'.name
    namespace' := instance'.namespace'
    labels := DBHubInstanceReconciler.labels instance'
    selector := DBHubInstanceReconciler.selectorLabels instance'
    templateLabels := labels
    templateAnnotations :=
      [("prometheus.io/scrape", "true"), ("prometheus.io/port", toString port)]
    replicas := replicas
    image := image
    imagePullPolicy := instance'.spec.imagePullPolicy
    args := ["--transport", transport, "--port", toString port,
             "--config", "/config/dbhub.toml"]
    port := port }

/-- A `corev1.ServicePort`. -/
structure ServicePort where
  name : String
  port : Int
  targetPort : Int
  protocol : String
  deriving DecidableEq, Repr

/-- A `corev1.ServiceSpec` (the fields the reconciler sets, plus the
server-assigned `clusterIP`). -/
structure ServiceSpec where
  serviceType : String
  selector : List (String × String)
  ports : List ServicePort
  clusterIP : String
  deriving DecidableEq, Repr

/-- A `corev1.Service`. -/
structure Service where
  name : String
  namespace' : String
  labels : List (String × String)
  spec : ServiceSpec
  deriving DecidableEq, Repr

/-- The Service desired by `reconcileService` (a fresh object's `clusterIP`
is the zero value `""`). -/
def DBHubInstanceReconciler.desiredService (instance' : DBHubInstance) : Service :=
  let port := instance'.GetPort
  { name := instance'.name ++ serviceSuffix
    namespace' := instance'.namespace'
    labels := DBHubInstanceReconciler.labels instance'
    spec :=
    { serviceType := "ClusterIP"
      selector := DBHubInstanceReconciler.selectorLabels instance'
      ports := [{ name := "http", port := port, targetPort := port, protocol := "TCP" }]
      clusterIP := "" } }

/-- The update branch of `reconcileService`: copy the existing `clusterIP`
into the desired spec, then overwrite the existing `Spec` and `Labels`. -/
def DBHubInstanceReconciler.reconcileServiceUpdate (instance' : DBHubInstance)
    (existing : Service) : Service :=
  let service := DBHubInstanceReconciler.desiredService instance'
  let service :=
    { service with spec := { service.spec with clusterIP := existing.spec.clusterIP } }
  { existing with spec := service.spec, labels := service.labels }

/-! ### The database reconciler (`database_controller.go`), modelled as a
function of the fetched object, the secret-store lookup, the connection-test
result (`none` = ping succeeded, `some err` = failed) and the current time. -/

/-- `meta.SetStatusCondition`: replace the condition of the same type
(keeping the previous transition time when the status is unchanged) or
append it. -/
def setStatusCondition (conds : List Condition) (c : Condition) : List Condition :=
  match conds with
  | [] => [c]
  | c' :: rest =>
    if c'.condType = c.condType then
      (if c'.status = c.status then { c with lastTransitionTime := c'.lastTransitionTime }
       else c) :: rest
    else c' :: setStatusCondition rest c

/-- `DatabaseReconciler.setDatabaseStatus`: set phase and message and the
`Ready` condition on the in-memory object (the Go method takes a `ctx` it
never uses and performs no API write). -/
def DatabaseReconciler.setDatabaseStatus (database : Database)
    (phase message : String) (now : Int) : Database :=
  let database :=
    { database with status := { database.status with phase := phase, message := message } }
  if phase = DatabasePhaseConnected then
    { database with status := { database.status with conditions :=
        (setStatusCondition database.status.conditions
          ⟨"Ready", true, "DatabaseReady", "Database is connected and ready", now⟩) } }
  else
    { database with status := { database.status with conditions :=
        (setStatusCondition database.status.conditions
          ⟨"Ready", false, phase, message, now⟩) } }

/-- The observable outcome of one `DatabaseReconciler.Reconcile` run:
the mutated in-memory object, the payloads actually written to the status
subresource (`r.Status().Update` calls), and the returned result. -/
structure DatabaseReconcileOutcome where
  database : Database
  statusWrites : List DatabaseStatus
  requeueAfter : Option Int
  error : Option String
  deriving DecidableEq, Repr

/-- `DatabaseReconciler.Reconcile` after a successful fetch of the object. -/
def DatabaseReconciler.Reconcile (store : SecretStore) (connResult : Option String)
    (now : Int) (database0 : Database) : DatabaseReconcileOutcome :=
  let database :=
    { database0 with status := { database0.status with observedGeneration :=
        if database0.status.observedGeneration ≠ database0.generation then
          database0.generation
        else database0.status.observedGeneration } }
  let database :=
    if database.status.phase = "" then
      { database with status := { database.status with phase := DatabasePhasePending } }
    else database
  match DatabaseReconciler.getCredentials store database with
  | .error e =>
    let database := DatabaseReconciler.setDatabaseStatus database DatabasePhaseFailed
      ("Failed to get credentials: " ++ e) now
    { database := database, statusWrites := [],
      requeueAfter := some HealthCheckInterval, error := none }
  | .ok (username, password) =>
    let dsnPair := DatabaseReconciler.buildDSN database username password
    let database :=
      { database with status := { database.status with dsn := dsnPair.2 } }
    let database :=
      { database with status := { database.status with lastChecked := some now } }
    match connResult with
    | some connErr =>
      let database := DatabaseReconciler.setDatabaseStatus database DatabasePhaseFailed
        ("Connection failed: " ++ connErr) now
      let database :=
        { database with status := { database.status with conditions :=
            (setStatusCondition database.status.conditions
              ⟨"Connected", false, "ConnectionFailed", connErr, now⟩) } }
      { database := database, statusWrites := [database.status],
        requeueAfter := some HealthCheckInterval, error := none }
    | none =>
      let database := DatabaseReconciler.setDatabaseStatus database
        DatabasePhaseConnected "" now
      let database :=
        { database with status := { database.status with conditions :=
            (setStatusCondition database.status.conditions
              ⟨"Connected", true, "ConnectionSuccessful",
                "Successfully connected to database", now⟩) } }
      { database := database, statusWrites := [database.status],
        requeueAfter := some HealthCheckInterval, error := none }

/-! ### Spec-level format descriptions (used to compare the implementation
against the specification's wording). -/

/-- The spec's table row for mysql/mariadb DSNs:
`<u>:<p>@tcp(<h>:<port>)/<db>?tls=<true|false>&timeout=<cto>s`. -/
def mysqlDSNFormat (u p h : String) (port : Int) (db : String) (tlsFlag : Bool)
    (cto : Int) : String :=
  u ++ ":" ++ p ++ "@tcp(" ++ h ++ ":" ++ toString port ++ ")/" ++ db ++
    "?tls=" ++ (if tlsFlag then "true" else "false") ++ "&timeout=" ++ toString cto ++ "s"

/-- The spec's TLS rule: `tls=true` iff `sslMode ∈ {require, verify-ca, verify-full}`. -/
def sslModeImpliesTLS (sslMode : String) : Bool :=
  decide (sslMode = SSLModeRequire) || decide (sslMode = SSLModeVerifyCA) ||
    decide (sslMode = SSLModeVerifyFull)

/-- What the tools section actually renders per selected source: exactly two
`[[tools]]` blocks — an `execute_sql` block carrying `readonly` when the policy
is read-only and `max_rows` when positive, and a bare `search_objects` block. -/
def toolsBlocksPerSourceSpec (p : DefaultPolicy) (db : Database) : String :=
  let execBlock := "[[tools]]\n" ++ "name = \"execute_sql\"\n" ++
    "source = \"" ++ db.name ++ "\"\n" ++
    (if p.readOnly then "readonly = true\n" else "") ++
    (if p.maxRows > 0 then "max_rows = " ++ toString p.maxRows ++ "\n" else "") ++
    "\n"
  let searchBlock := "[[tools]]\n" ++ "name = \"search_objects\"\n" ++
    "source = \"" ++ db.name ++ "\"\n" ++ "\n"
  execBlock ++ searchBlock

/-- Count (possibly overlapping) occurrences of a pattern in a character list. -/
def countOccur (pat : List Char) : List Char → Nat
  | [] => 0
  | c :: rest => (if pat.isPrefixOf (c :: rest) then 1 else 0) + countOccur pat rest

/-- Number of `[[tools]]` block headers in a rendered config. -/
def countToolsBlocks (s : String) : Nat :=
  countOccur "[[tools]]".toList s.toList

/-- The config text of a `generateConfig` result (`""` on error). -/
def configTextOf (r : Except String (String × List (String × String))) : String :=
  match r with
  | .ok (cfg, _) => cfg
  | .error _ => ""

/-! ### Concrete sample objects for closed evaluations. -/

/-- A policy allowing a single operation. -/
def samplePolicy : DefaultPolicy :=
  { readOnly := true, maxRows := 1000, allowedOperations := ["execute_sql"] }

/-- A gateway instance with no selector and `samplePolicy`. -/
def sampleInstance : DBHubInstance :=
  { name := "gw"
    namespace' := "default"
    generation := 1
    spec :=
    { replicas := some 1, image := "", imagePullPolicy := "", transport := ""
      port := 0, databaseSelector := none, defaultPolicy := some samplePolicy
      resources := none }
    status := ⟨"", 0, [], "", "", 0, none, []⟩ }

/-- A connected MySQL database in the `default` namespace. -/
def sampleDbMy : Database :=
  { name := "mysql-a"
    namespace' := "default"
    labels := []
    generation := 1
    spec :=
    { dbType := "mysql", host := "my.example.com", port := 3306, database := "shop"
      credentialsRef := ⟨"my-creds", "", "", ""⟩, connectionTimeout := 30
      queryTimeout := 60, sslMode := "disable", maxRows := 1000, readOnly := true
      description := "" }
    status := ⟨"Connected", none, "", "", 0, []⟩ }

/-- A new postgres database with `port = 0` (before defaulting). -/
def sampleDbPg : Database :=
  { name := "pg-main"
    namespace' := "default"
    labels := [("tier", "db")]
    generation := 1
    spec :=
    { dbType := "postgres", host := "pg.example.com", port := 0, database := "appdb"
      credentialsRef := ⟨"pg-creds", "", "", ""⟩, connectionTimeout := 0
      queryTimeout := 0, sslMode := "", maxRows := 0, readOnly := true
      description := "" }
    status := ⟨"", none, "", "", 0, []⟩ }

/-- A secret store where every lookup fails (missing/forbidden secret). -/
def sampleStoreMissing : SecretStore := fun _ _ => .error "secrets \"my-creds\" not found"

/-- A store holding `default/my-creds` without `username`/`password` keys. -/
def sampleStoreNoKeys : SecretStore := fun ns name =>
  if ns = "default" ∧ name = "my-creds" then .ok ⟨[("foo", "bar")]⟩
  else .error "not found"

/-- A store holding `default/my-creds` with both credential keys. -/
def sampleStoreFull : SecretStore := fun ns name =>
  if ns = "default" ∧ name = "my-creds" then .ok ⟨[("username", "u"), ("password", "p")]⟩
  else .error "not found"

/-! ## Helper lemmas -/

theorem lexLe_cons {a b : Char} {as bs : List Char} :
    lexLe (a :: as) (b :: bs) = true ↔
      a.toNat < b.toNat ∨ (a.toNat = b.toNat ∧ lexLe as bs = true) := by
  show (if a.toNat < b.toNat then true
    else if a.toNat = b.toNat then lexLe as bs else false) = true ↔ _
  split_ifs with h1 h2
  · simp [h1]
  · simp [h1, h2]
  · simp [h1, h2]

theorem lexLe_total : ∀ a b : List Char, lexLe a b = true ∨ lexLe b a = true := by
  intro a
  induction a with
  | nil => intro b; left; rfl
  | cons x xs ih =>
    intro b
    cases b with
    | nil => right; rfl
    | cons y ys =>
      rcases Nat.lt_trichotomy x.toNat y.toNat with h | h | h
      · left; exact lexLe_cons.mpr (Or.inl h)
      · rcases ih ys with hh | hh
        · left; exact lexLe_cons.mpr (Or.inr ⟨h, hh⟩)
        · right; exact lexLe_cons.mpr (Or.inr ⟨h.symm, hh⟩)
      · right; exact lexLe_cons.mpr (Or.inl h)

theorem lexLe_trans : ∀ a b c : List Char,
    lexLe a b = true → lexLe b c = true → lexLe a c = true := by
  intro a
  induction a with
  | nil => intro b c _ _; rfl
  | cons x xs ih =>
    intro b c hab hbc
    cases b with
    | nil => simp [lexLe] at hab
    | cons y ys =>
      cases c with
      | nil => simp [lexLe] at hbc
      | cons z zs =>
        rcases lexLe_cons.mp hab with h1 | ⟨h1, h1'⟩ <;>
          rcases lexLe_cons.mp hbc with h2 | ⟨h2, h2'⟩
        · exact lexLe_cons.mpr (Or.inl (by omega))
        · exact lexLe_cons.mpr (Or.inl (by omega))
        · exact lexLe_cons.mpr (Or.inl (by omega))
        · exact lexLe_cons.mpr (Or.inr ⟨by omega, ih ys zs h1' h2'⟩)

theorem strLe_total (a b : String) : strLe a b = true ∨ strLe b a = true :=
  lexLe_total a.toList b.toList

theorem strLe_trans {a b c : String} :
    strLe a b = true → strLe b c = true → strLe a c = true :=
  lexLe_trans a.toList b.toList c.toList

theorem sortStrings_sorted (l : List String) :
    List.Sorted strLeRel (sortStrings l) := by
  haveI : IsTotal String strLeRel := ⟨strLe_total⟩
  haveI : IsTrans String strLeRel := ⟨fun _ _ _ => strLe_trans⟩
  exact List.sorted_insertionSort strLeRel l

theorem mem_sortStrings {x : String} {l : List String} :
    x ∈ sortStrings l ↔ x ∈ l :=
  (List.perm_insertionSort strLeRel l).mem_iff

theorem setIfEmptyStr_idem (s d : String) (hd : d ≠ "") :
    (if (if s = "" then d else s) = "" then d else (if s = "" then d else s))
      = (if s = "" then d else s) := by
  by_cases h : s = "" <;> simp [h, hd]

theorem setIfZeroInt_idem (n d : Int) (hd : d ≠ 0) :
    (if (if n = 0 then d else n) = 0 then d else (if n = 0 then d else n))
      = (if n = 0 then d else n) := by
  by_cases h : n = 0 <;> simp [h, hd]

theorem setIfNone_idem {α : Type} [DecidableEq α] (o : Option α) (d : α) :
    (if (if o = none then some d else o) = none then some d
      else (if o = none then some d else o))
      = (if o = none then some d else o) := by
  cases o <;> simp

theorem defaultPort_idem (t : String) (port : Int) :
    (if (if port = 0 then defaultPortFor t port else port) = 0
      then defaultPortFor t (if port = 0 then defaultPortFor t port else port)
      else (if port = 0 then defaultPortFor t port else port))
    = (if port = 0 then defaultPortFor t port else port) := by
  by_cases hp : port = 0
  · simp only [hp, if_pos rfl]
    unfold defaultPortFor
    split_ifs <;> simp_all
  · simp [hp]

theorem matches_namespace {d : DBHubInstance} {db : Database}
    (h : d.MatchesDatabase db = true) : db.namespace' = d.namespace' := by
  unfold DBHubInstance.MatchesDatabase at h
  cases hsel : d.spec.databaseSelector with
  | none =>
    rw [hsel] at h
    exact of_decide_eq_true h
  | some sel =>
    rw [hsel] at h
    by_cases hns : db.namespace' = d.namespace'
    · exact hns
    · simp [hns] at h

theorem sha256_length (msg : List Nat) : (sha256 msg).length = 32 := by
  simp [sha256, sha256Digest, wordBytes]

theorem length_flatMap_byteHex (bs : List Nat) :
    (bs.flatMap byteHex).length = 2 * bs.length := by
  induction bs with
  | nil => rfl
  | cons b rest ih =>
    simp [byteHex, ih]
    omega

theorem hexDigitChar_mem (n : Nat) (h : n < 16) :
    hexDigitChar n ∈ "0123456789abcdef".toList := by
  have hall : ∀ m, m < 16 → hexDigitChar m ∈ "0123456789abcdef".toList := by decide
  exact hall n h

theorem byteHex_mem_hex {b : Nat} (hb : b < 256) :
    ∀ c ∈ byteHex b, c ∈ "0123456789abcdef".toList := by
  intro c hc
  simp only [byteHex, List.mem_cons, List.not_mem_nil, or_false] at hc
  rcases hc with rfl | rfl
  · exact hexDigitChar_mem _ (by omega)
  · exact hexDigitChar_mem _ (Nat.mod_lt _ (by norm_num))

theorem wordBytes_lt (w : Nat) : ∀ b ∈ wordBytes w, b < 256 := by
  intro b hb
  simp only [wordBytes, List.mem_cons, List.not_mem_nil, or_false] at hb
  rcases hb with hb | hb | hb | hb <;> rw [hb] <;> exact Nat.mod_lt _ (by norm_num)

theorem sha256_bytes_lt (msg : List Nat) : ∀ b ∈ sha256 msg, b < 256 := by
  have hst : ∀ st : Sha256State, ∀ b ∈ sha256Digest st, b < 256 := by
    intro st
    unfold sha256Digest
    simp only [List.forall_mem_append]
    exact ⟨⟨⟨⟨⟨⟨⟨wordBytes_lt _, wordBytes_lt _⟩, wordBytes_lt _⟩, wordBytes_lt _⟩,
      wordBytes_lt _⟩, wordBytes_lt _⟩, wordBytes_lt _⟩, wordBytes_lt _⟩
  exact hst _

set_option maxRecDepth 10000 in
/-- The embedded SHA-256 matches the NIST FIPS 180-4 test vectors. -/
theorem sha256_known_answer :
    bytesToHex (sha256 (strBytes "abc")) =
      "ba7816bf8f01cfea414140de5dae2223b00361a396177a9cb410ff61f20015ad" ∧
    bytesToHex (sha256 (strBytes "")) =
      "e3b0c44298fc1c149afbf4c8996fb92427ae41e4649b934ca495991b7852b855" := by
  constructor <;> decide

theorem toolsEntry_eq_blocks (p : DefaultPolicy) (db : Database) :
    toolsEntry p db = toolsBlocksPerSourceSpec p db := by
  simp only [toolsEntry, toolsBlocksPerSourceSpec, String.append_assoc]

/-! ## Claim theorems -/

/-- C1 (amended): when `defaultPolicy` is set and the selected list is
non-empty, the tools section consists of exactly the two fixed blocks per
source described by `toolsBlocksPerSourceSpec` (`execute_sql` carrying the
policy's read-only and max-rows settings, `search_objects` carrying neither),
independently of `defaultPolicy.allowedOperations`; a successful
`generateConfig` emits this section after the sources section. -/
theorem generateConfig_tools_amended (p : DefaultPolicy) (databases : List Database)
    (hne : databases ≠ []) :
    toolsSection (some p) databases =
      String.join (databases.map (toolsBlocksPerSourceSpec p)) ∧
    (∀ ops', toolsSection (some { p with allowedOperations := ops' }) databases =
      toolsSection (some p) databases) ∧
    ∀ (store : SecretStore) (instance' : DBHubInstance) cfg creds,
      instance'.spec.defaultPolicy = some p →
      DBHubInstanceReconciler.generateConfig store instance' databases =
        .ok (cfg, creds) →
      ∃ sources, cfg =
        sources ++ String.join (databases.map (toolsBlocksPerSourceSpec p)) := by
  have hlen : databases.length > 0 := List.length_pos.mpr hne
  have hsec : toolsSection (some p) databases =
      String.join (databases.map (toolsBlocksPerSourceSpec p)) := by
    show (if databases.length > 0 then
        String.join (databases.map (toolsEntry p)) else "") = _
    rw [if_pos hlen]
    congr 1
    exact List.map_congr_left (fun db _ => toolsEntry_eq_blocks p db)
  refine ⟨hsec, ?_, ?_⟩
  · intro ops'
    show (if databases.length > 0 then
        String.join (databases.map (toolsEntry { p with allowedOperations := ops' }))
      else "") = toolsSection (some p) databases
    rw [if_pos hlen, hsec]
    congr 1
    apply List.map_congr_left
    intro db _
    simp only [toolsEntry, toolsBlocksPerSourceSpec, String.append_assoc]
  · intro store instance' cfg creds hpol hok
    unfold DBHubInstanceReconciler.generateConfig at hok
    cases hcs : collectSources store databases with
    | error e =>
      rw [hcs] at hok
      exact absurd hok (by simp)
    | ok pair =>
      rw [hcs] at hok
      refine ⟨pair.1, ?_⟩
      have : cfg = pair.1 ++ toolsSection instance'.spec.defaultPolicy databases := by
        cases pair with
        | mk s c =>
          simp only [Except.ok.injEq, Prod.mk.injEq] at hok
          exact hok.1.symm
      rw [this, hpol, hsec]

/-- C5: `MatchesDatabase(d, db)` holds iff `db` is in `d`'s namespace and
either `d` has no `databaseSelector`, or both (`matchNames` is empty or `db`'s
name is a member of `matchNames`) and (every key/value pair in `matchLabels`
equals the corresponding label on `db`, where an absent label reads as the
zero value). -/
theorem MatchesDatabase_characterization (d : DBHubInstance) (db : Database) :
    d.MatchesDatabase db = true ↔
      (db.namespace' = d.namespace' ∧
        (d.spec.databaseSelector = none ∨
          ∃ sel, d.spec.databaseSelector = some sel ∧
            (sel.matchNames = [] ∨ db.name ∈ sel.matchNames) ∧
            (∀ kv ∈ sel.matchLabels, goGet db.labels kv.1 = kv.2))) := by
  unfold DBHubInstance.MatchesDatabase
  cases hsel : d.spec.databaseSelector with
  | none => simp
  | some sel =>
    simp only [Option.some.injEq, reduceCtorEq, false_or]
    constructor
    · intro h
      split_ifs at h with h1 h2 h3
      all_goals try simp at h
      have hns : db.namespace' = d.namespace' := by
        by_contra hc
        exact h1 hc
      refine ⟨hns, sel, rfl, ?_, ?_⟩
      · rcases Nat.eq_zero_or_pos sel.matchNames.length with hz | hpos
        · left
          exact List.length_eq_zero.mp hz
        · right
          by_contra hmem
          apply h2
          simp only [gt_iff_lt, hpos, decide_True, Bool.true_and,
            Bool.not_eq_true', List.any_eq_false, decide_eq_false_iff_not]
          intro n hn hdn
          have hdn' : db.name = n := of_decide_eq_true hdn
          apply hmem
          rw [hdn']
          exact hn
      · intro kv hkv
        by_contra hne
        apply h3
        have hpos : 0 < sel.matchLabels.length :=
          List.length_pos.mpr (List.ne_nil_of_mem hkv)
        simp only [gt_iff_lt, hpos, decide_True, Bool.true_and,
          Bool.not_eq_true', List.all_eq_false, decide_eq_true_eq]
        exact ⟨kv, hkv, hne⟩
    · rintro ⟨hns, sel', rfl, hnames, hlabels⟩
      rw [if_neg (by simpa using hns)]
      have h2 : ¬ (decide (sel.matchNames.length > 0) &&
          !(sel.matchNames.any fun n => decide (db.name = n))) = true := by
        rcases hnames with hz | hmem
        · simp [hz]
        · simp only [Bool.and_eq_true, Bool.not_eq_true', List.any_eq_false,
            decide_eq_true_eq, not_and]
          intro _ hall
          exact hall db.name hmem rfl
      have h3 : ¬ (decide (sel.matchLabels.length > 0) &&
          !(sel.matchLabels.all fun kv => decide (goGet db.labels kv.1 = kv.2))) = true := by
        simp only [Bool.and_eq_true, Bool.not_eq_true', List.all_eq_false,
          decide_eq_true_eq, not_and]
        intro _ hex
        rcases hex with ⟨kv, hkv, hne⟩
        exact hne (hlabels kv hkv)
      rw [if_neg h2, if_neg h3]

/-- C4: after the gateway reconcile stores the connected-database list,
`status.connectedDatabases` is name-sorted and contains exactly the names of
databases in the listing that match the selector (hence are in the instance's
namespace) and have `status.phase == Connected`. -/
theorem connectedDatabases_exact (instance' : DBHubInstance)
    (databaseList : List Database) :
    List.Sorted strLeRel
      (DBHubInstanceReconciler.updateConnectedDatabases instance'
        databaseList).status.connectedDatabases ∧
    ∀ x : String,
      x ∈ (DBHubInstanceReconciler.updateConnectedDatabases instance'
          databaseList).status.connectedDatabases ↔
        ∃ db ∈ databaseList,
          db.namespace' = instance'.namespace' ∧
          instance'.MatchesDatabase db = true ∧
          db.status.phase = DatabasePhaseConnected ∧ db.name = x := by
  constructor
  · show List.Sorted strLeRel (sortStrings _)
    exact sortStrings_sorted _
  · intro x
    show x ∈ sortStrings
      ((DBHubInstanceReconciler.findMatchingDatabases instance' databaseList).map
        (·.name)) ↔ _
    rw [mem_sortStrings]
    simp only [List.mem_map, DBHubInstanceReconciler.findMatchingDatabases,
      List.mem_filter, Bool.and_eq_true, decide_eq_true_eq]
    constructor
    · rintro ⟨db, ⟨hmem, hmatch, hphase⟩, hname⟩
      exact ⟨db, hmem, matches_namespace hmatch, hmatch, hphase, hname⟩
    · rintro ⟨db, hmem, _, hmatch, hphase, hname⟩
      exact ⟨db, ⟨hmem, hmatch, hphase⟩, hname⟩

/-- Witness for `generateConfig_tools_amended` at a concrete policy and
database list. -/
theorem generateConfig_tools_amended_witness :
    toolsSection (some samplePolicy) [sampleDbMy] =
      String.join ([sampleDbMy].map (toolsBlocksPerSourceSpec samplePolicy)) ∧
    toolsSection (some { samplePolicy with allowedOperations := ["list_tables"] })
        [sampleDbMy] =
      toolsSection (some samplePolicy) [sampleDbMy] :=
  ⟨(generateConfig_tools_amended samplePolicy [sampleDbMy] (by decide)).1,
   (generateConfig_tools_amended samplePolicy [sampleDbMy] (by decide)).2.1
     ["list_tables"]⟩

set_option maxRecDepth 10000 in
/-- C1 counterexample: a gateway whose `defaultPolicy.allowedOperations` lists
a single operation still gets two `[[tools]]` blocks for its single selected
source, not one block per allowed operation. -/
theorem generateConfig_tools_counterexample :
    sampleInstance.spec.defaultPolicy = some samplePolicy ∧
    samplePolicy.allowedOperations.length * [sampleDbMy].length = 1 ∧
    countToolsBlocks (configTextOf
      (DBHubInstanceReconciler.generateConfig sampleStoreFull sampleInstance
        [sampleDbMy])) = 2 ∧
    (2 : Nat) ≠ 1 := by
  decide

/-- C2 (code bug): when the credentials secret cannot be read, the database
reconciler sets phase `Failed` (with message and `Ready` condition) only on
the in-memory object and returns a health-check-interval requeue with no
error, but performs no write to the status subresource, so the failure is not
observable on `status.phase`, `status.conditions` or `status.message`. -/
theorem database_reconcile_credentials_failure_not_published :
    (DatabaseReconciler.Reconcile sampleStoreMissing none 100
        sampleDbMy).database.status.phase = DatabasePhaseFailed ∧
    (DatabaseReconciler.Reconcile sampleStoreMissing none 100
        sampleDbMy).database.status.message =
      "Failed to get credentials: failed to get secret default/my-creds: " ++
        "secrets \"my-creds\" not found" ∧
    (DatabaseReconciler.Reconcile sampleStoreMissing none 100
        sampleDbMy).statusWrites = [] ∧
    (DatabaseReconciler.Reconcile sampleStoreMissing none 100
        sampleDbMy).requeueAfter = some HealthCheckInterval ∧
    (DatabaseReconciler.Reconcile sampleStoreMissing none 100
        sampleDbMy).error = none := by
  decide

/-- C10: when a selected database's referenced secret exists but lacks the
user key or the password key, the gateway's `getDatabaseCredentials` returns
the zero value `""` for each missing key with no error — unlike the database
reconciler's `getCredentials`, which errors — and `generateConfig` succeeds,
storing a DSN built from the empty credentials in the derived Secret data. -/
theorem gateway_credentials_zero_value (store : SecretStore) (db : Database)
    (secret : Secret)
    (hs : store db.GetCredentialsNamespace db.spec.credentialsRef.name = .ok secret)
    (hu : goLookup secret.data db.GetUserKey = none)
    (hp : goLookup secret.data db.GetPasswordKey = none) :
    DBHubInstanceReconciler.getDatabaseCredentials store db = .ok ("", "") ∧
    (DatabaseReconciler.getCredentials store db).isOk = false ∧
    ∀ instance' : DBHubInstance,
      DBHubInstanceReconciler.generateConfig store instance' [db] =
        .ok ((sourcesEntry db ++ "") ++ toolsSection instance'.spec.defaultPolicy [db],
          [(DBHubInstanceReconciler.envName db.name ++ "_DSN",
            DBHubInstanceReconciler.buildDSN db "" "")]) := by
  have h1 : DBHubInstanceReconciler.getDatabaseCredentials store db = .ok ("", "") := by
    unfold DBHubInstanceReconciler.getDatabaseCredentials
    rw [hs]
    simp [goGet, hu, hp]
  refine ⟨h1, ?_, ?_⟩
  · unfold DatabaseReconciler.getCredentials
    simp only [hs, hu]
    rfl
  · intro instance'
    have hcs : collectSources store [db] =
        .ok (sourcesEntry db ++ "",
          [(DBHubInstanceReconciler.envName db.name ++ "_DSN",
            DBHubInstanceReconciler.buildDSN db "" "")]) := by
      unfold collectSources
      rw [h1]
      rfl
    unfold DBHubInstanceReconciler.generateConfig
    rw [hcs]

/-- Witness for `gateway_credentials_zero_value`: a secret holding neither
credential key. -/
theorem gateway_credentials_zero_value_witness :
    DBHubInstanceReconciler.getDatabaseCredentials sampleStoreNoKeys sampleDbMy =
      .ok ("", "") ∧
    (DatabaseReconciler.getCredentials sampleStoreNoKeys sampleDbMy).isOk = false :=
  ⟨(gateway_credentials_zero_value sampleStoreNoKeys sampleDbMy ⟨[("foo", "bar")]⟩
      (by rfl) (by rfl) (by rfl)).1,
   (gateway_credentials_zero_value sampleStoreNoKeys sampleDbMy ⟨[("foo", "bar")]⟩
      (by rfl) (by rfl) (by rfl)).2.1⟩

/-- C3 (amended): for mysql/mariadb, the database reconciler's full DSN is
`<u>:<p>@tcp(<h>:<port>)/<db>?tls=<t>&timeout=<connectionTimeout>s` with
`tls=true` iff `sslMode ∈ {require, verify-ca, verify-full}`; the gateway
reconciler's `buildDSN` produces the same form but without the `&timeout=`
parameter. -/
theorem buildDSN_mysql_forms (db : Database) (u p : String)
    (ht : db.spec.dbType = DatabaseTypeMySQL ∨ db.spec.dbType = DatabaseTypeMariaDB) :
    (DatabaseReconciler.buildDSN db u p).1 =
      mysqlDSNFormat u p db.spec.host db.spec.port db.spec.database
        (sslModeImpliesTLS db.spec.sslMode) db.spec.connectionTimeout ∧
    DBHubInstanceReconciler.buildDSN db u p =
      u ++ ":" ++ p ++ "@tcp(" ++ db.spec.host ++ ":" ++ toString db.spec.port ++
        ")/" ++ db.spec.database ++ "?tls=" ++
        (if sslModeImpliesTLS db.spec.sslMode then "true" else "false") ∧
    (sslModeImpliesTLS db.spec.sslMode = true ↔
      (db.spec.sslMode = SSLModeRequire ∨ db.spec.sslMode = SSLModeVerifyCA ∨
        db.spec.sslMode = SSLModeVerifyFull)) := by
  have hiff : sslModeImpliesTLS db.spec.sslMode = true ↔
      (db.spec.sslMode = SSLModeRequire ∨ db.spec.sslMode = SSLModeVerifyCA ∨
        db.spec.sslMode = SSLModeVerifyFull) := by
    simp [sslModeImpliesTLS]
    tauto
  refine ⟨?_, ?_, hiff⟩ <;>
  · by_cases hssl : db.spec.sslMode = SSLModeRequire ∨
        db.spec.sslMode = SSLModeVerifyCA ∨ db.spec.sslMode = SSLModeVerifyFull
    · rcases ht with ht | ht <;> rcases hssl with h | h | h <;>
        simp [DatabaseReconciler.buildDSN, DBHubInstanceReconciler.buildDSN,
          mysqlDSNFormat, sslModeImpliesTLS, ht, h,
          DatabaseTypePostgres, DatabaseTypeMySQL, DatabaseTypeMariaDB,
          SSLModeRequire, SSLModeVerifyCA, SSLModeVerifyFull]
    · push_neg at hssl
      obtain ⟨h1, h2, h3⟩ := hssl
      rcases ht with ht | ht <;>
        simp [DatabaseReconciler.buildDSN, DBHubInstanceReconciler.buildDSN,
          mysqlDSNFormat, sslModeImpliesTLS, ht, h1, h2, h3,
          DatabaseTypePostgres, DatabaseTypeMySQL, DatabaseTypeMariaDB]

/-- Witness for `buildDSN_mysql_forms` at a concrete mysql database. -/
theorem buildDSN_mysql_forms_witness :
    (DatabaseReconciler.buildDSN sampleDbMy "u" "p").1 =
      mysqlDSNFormat "u" "p" sampleDbMy.spec.host sampleDbMy.spec.port
        sampleDbMy.spec.database (sslModeImpliesTLS sampleDbMy.spec.sslMode)
        sampleDbMy.spec.connectionTimeout :=
  (buildDSN_mysql_forms sampleDbMy "u" "p" (Or.inl (by decide))).1

/-- C3 counterexample: on a concrete mysql database, the gateway reconciler's
`buildDSN` omits the `&timeout=<connectionTimeout>s` parameter that the claimed
common format requires, so the two reconcilers do not produce the same DSN
form (the database reconciler does follow the claimed format). -/
theorem buildDSN_gateway_timeout_counterexample :
    DBHubInstanceReconciler.buildDSN sampleDbMy "u" "p" =
      "u:p@tcp(my.example.com:3306)/shop?tls=false" ∧
    mysqlDSNFormat "u" "p" "my.example.com" 3306 "shop"
        (sslModeImpliesTLS sampleDbMy.spec.sslMode)
        sampleDbMy.spec.connectionTimeout =
      "u:p@tcp(my.example.com:3306)/shop?tls=false&timeout=30s" ∧
    DBHubInstanceReconciler.buildDSN sampleDbMy "u" "p" ≠
      mysqlDSNFormat "u" "p" "my.example.com" 3306 "shop"
        (sslModeImpliesTLS sampleDbMy.spec.sslMode)
        sampleDbMy.spec.connectionTimeout ∧
    (DatabaseReconciler.buildDSN sampleDbMy "u" "p").1 =
      "u:p@tcp(my.example.com:3306)/shop?tls=false&timeout=30s" := by
  decide

/-- C7: Defaulting is idempotent: for every Database object,
`Default(Default(x))` produces the same object as `Default(x)`, and likewise
for every DBHubInstance object. -/
theorem defaulting_idempotent (db : Database) (obj : DBHubInstance) :
    DatabaseCustomDefaulter.Default (DatabaseCustomDefaulter.Default db) =
      DatabaseCustomDefaulter.Default db ∧
    DBHubInstanceCustomDefaulter.Default (DBHubInstanceCustomDefaulter.Default obj) =
      DBHubInstanceCustomDefaulter.Default obj := by
  constructor
  · simp only [DatabaseCustomDefaulter.Default]
    simp only [Database.mk.injEq, DatabaseSpec.mk.injEq, CredentialsRef.mk.injEq,
      and_true, true_and]
    and_intros <;>
      first
        | exact defaultPort_idem _ _
        | exact setIfEmptyStr_idem _ _ (by decide)
        | exact setIfZeroInt_idem _ _ (by decide)
  · simp only [DBHubInstanceCustomDefaulter.Default]
    simp only [DBHubInstance.mk.injEq, DBHubInstanceSpec.mk.injEq, and_true, true_and]
    and_intros <;>
      first
        | exact setIfNone_idem _ _
        | exact setIfEmptyStr_idem _ _ (by decide)
        | exact setIfZeroInt_idem _ _ (by decide)

/-- C8: For every Database with `spec.port == 0`, the defaulter sets port to
5432 for postgres, 3306 for mysql/mariadb and 1433 for sqlserver; a nonzero
port is kept unchanged. -/
theorem database_default_port (db : Database) :
    (db.spec.port = 0 →
      (db.spec.dbType = DatabaseTypePostgres →
        (DatabaseCustomDefaulter.Default db).spec.port = 5432) ∧
      (db.spec.dbType = DatabaseTypeMySQL ∨ db.spec.dbType = DatabaseTypeMariaDB →
        (DatabaseCustomDefaulter.Default db).spec.port = 3306) ∧
      (db.spec.dbType = DatabaseTypeSQLServer →
        (DatabaseCustomDefaulter.Default db).spec.port = 1433)) ∧
    (db.spec.port ≠ 0 →
      (DatabaseCustomDefaulter.Default db).spec.port = db.spec.port) := by
  have hport : (DatabaseCustomDefaulter.Default db).spec.port =
      (if db.spec.port = 0 then defaultPortFor db.spec.dbType db.spec.port
       else db.spec.port) := rfl
  constructor
  · intro hp
    refine ⟨fun ht => ?_, fun ht => ?_, fun ht => ?_⟩
    · rw [hport, if_pos hp, ht]
      simp [defaultPortFor]
    · rw [hport, if_pos hp]
      rcases ht with ht | ht <;> rw [ht] <;>
        simp [defaultPortFor, DatabaseTypePostgres, DatabaseTypeMySQL,
          DatabaseTypeMariaDB]
    · rw [hport, if_pos hp, ht]
      simp [defaultPortFor, DatabaseTypePostgres, DatabaseTypeMySQL,
        DatabaseTypeMariaDB, DatabaseTypeSQLServer]
  · intro hp
    rw [hport, if_neg hp]

/-- Witness for `database_default_port` at concrete inputs: a postgres
database with port 0 gets 5432; a mysql database with port 3306 keeps it. -/
theorem database_default_port_witness :
    (DatabaseCustomDefaulter.Default sampleDbPg).spec.port = 5432 ∧
    (DatabaseCustomDefaulter.Default sampleDbMy).spec.port = 3306 :=
  ⟨((database_default_port sampleDbPg).1 (by decide)).1 (by decide),
   (database_default_port sampleDbMy).2 (by decide)⟩

/-- C9: the update branch of `reconcileService` overwrites the existing
Service's spec and labels with the desired state, except that `clusterIP`
keeps the existing Service's value. -/
theorem reconcileService_preserves_clusterIP (instance' : DBHubInstance)
    (existing : Service) :
    (DBHubInstanceReconciler.reconcileServiceUpdate instance' existing).spec.clusterIP =
      existing.spec.clusterIP ∧
    (DBHubInstanceReconciler.reconcileServiceUpdate instance' existing).spec =
      { (DBHubInstanceReconciler.desiredService instance').spec with
          clusterIP := existing.spec.clusterIP } ∧
    (DBHubInstanceReconciler.reconcileServiceUpdate instance' existing).labels =
      (DBHubInstanceReconciler.desiredService instance').labels ∧
    (DBHubInstanceReconciler.reconcileServiceUpdate instance' existing).name =
      existing.name := by
  refine ⟨rfl, rfl, rfl, rfl⟩

/-- C6: `calculateHash` of the rendered TOML is the lowercase hex encoding of
the first 8 bytes of its SHA-256 digest — a 16-character string over
`0-9a-f` — it is what the reconcile stores in `status.configHash`, it equals
the hash of the ConfigMap's `dbhub.toml` content, it is set as the
`config-hash` label on the Deployment's pod template, and equal TOML inputs
yield equal hashes. -/
theorem configHash_fingerprint (instance' : DBHubInstance) (configData : String) :
    DBHubInstanceReconciler.calculateHash configData =
      bytesToHex ((sha256 (strBytes configData)).take 8) ∧
    (DBHubInstanceReconciler.calculateHash configData).length = 16 ∧
    (∀ c ∈ (DBHubInstanceReconciler.calculateHash configData).toList,
      c ∈ "0123456789abcdef".toList) ∧
    (DBHubInstanceReconciler.updateConfigHash instance' configData).status.configHash =
      DBHubInstanceReconciler.calculateHash
        (goGet (DBHubInstanceReconciler.desiredConfigMap instance' configData).data
          "dbhub.toml") ∧
    goGet (DBHubInstanceReconciler.desiredDeployment instance'
        (DBHubInstanceReconciler.calculateHash configData)).templateLabels
        "config-hash" =
      DBHubInstanceReconciler.calculateHash configData ∧
    (∀ d' : String, configData = d' →
      DBHubInstanceReconciler.calculateHash configData =
        DBHubInstanceReconciler.calculateHash d') := by
  refine ⟨rfl, ?_, ?_, ?_, ?_, ?_⟩
  · show (bytesToHex ((sha256 (strBytes configData)).take 8)).length = 16
    show ((sha256 (strBytes configData)).take 8 |>.flatMap byteHex).length = 16
    rw [length_flatMap_byteHex, List.length_take, sha256_length]
    rfl
  · intro c hc
    have hc' : c ∈ ((sha256 (strBytes configData)).take 8).flatMap byteHex := hc
    rw [List.mem_flatMap] at hc'
    rcases hc' with ⟨b, hb, hcb⟩
    have hb' : b ∈ sha256 (strBytes configData) := List.take_subset _ _ hb
    exact byteHex_mem_hex (sha256_bytes_lt _ b hb') c hcb
  · show DBHubInstanceReconciler.calculateHash configData =
      DBHubInstanceReconciler.calculateHash
        (goGet [("dbhub.toml", configData)] "dbhub.toml")
    simp [goGet, goLookup]
  · show goGet (goInsert (DBHubInstanceReconciler.labels instance') "config-hash"
        (DBHubInstanceReconciler.calculateHash configData)) "config-hash" = _
    simp [DBHubInstanceReconciler.labels, goInsert, goGet, goLookup]
  · intro d' h
    rw [h]

/-- Witness for `configHash_fingerprint` at a concrete TOML string. -/
theorem configHash_fingerprint_witness :
    (DBHubInstanceReconciler.calculateHash "x").length = 16 ∧
    DBHubInstanceReconciler.calculateHash "x" =
      DBHubInstanceReconciler.calculateHash "x" :=
  ⟨(configHash_fingerprint sampleInstance "x").2.1,
   (configHash_fingerprint sampleInstance "x").2.2.2.2.2 "x" rfl⟩

end DBHub
